import Mathlib

/-
Verification of the rust-genai adapter layer: a shallow embedding of the
vendor translators (OpenAI, Anthropic, Gemini), the conversation model,
and the tool-invocation bridge, with theorems checking the specification's
testable properties against the embedded code.

JSON values are modelled by an inductive `Json` type.  Numbers are
restricted to integers (every JSON value appearing in the properties under
study is integer-valued); serde_json's serializer and parser are modelled
by `Json.render` and `parseJson` below.
-/

namespace Genai

/-- JSON value, as in serde_json's `Value` (numbers restricted to integers). -/
inductive Json where
  | null
  | bool (b : Bool)
  | num (n : Int)
  | str (s : String)
  | arr (elems : List Json)
  | obj (fields : List (String × Json))

/-- Opening brace character, written via its code point. -/
def obraceC : Char := Char.ofNat 123

/-- Closing brace character, written via its code point. -/
def cbraceC : Char := Char.ofNat 125

/-- Single-quote character, written via its code point. -/
def squote : String := String.singleton (Char.ofNat 39)

/-- Lowercase hex digit for a value below 16. -/
def hexDigit (n : Nat) : Char :=
  if n < 10 then Char.ofNat (48 + n) else Char.ofNat (87 + n)

/-- Four-digit lowercase hex rendering, as serde_json writes control escapes. -/
def hex4 (n : Nat) : String :=
  String.mk [hexDigit (n / 4096 % 16), hexDigit (n / 256 % 16),
             hexDigit (n / 16 % 16), hexDigit (n % 16)]

/-- JSON string escaping of one character, following serde_json's table. -/
def escapeJsonChar (c : Char) : String :=
  if c = '"' then "\\\""
  else if c = '\\' then "\\\\"
  else if c = Char.ofNat 8 then "\\b"
  else if c = Char.ofNat 12 then "\\f"
  else if c = '\n' then "\\n"
  else if c = '\r' then "\\r"
  else if c = '\t' then "\\t"
  else if c.toNat < 32 then "\\u" ++ hex4 c.toNat
  else String.singleton c

/-- Render a JSON string literal with quotes and escapes. -/
def renderString (s : String) : String :=
  "\"" ++ String.join (s.data.map escapeJsonChar) ++ "\""

mutual

/-- Compact serialization, as serde_json's `to_string` on `Value`. -/
def Json.render : Json → String
  | .null => "null"
  | .bool true => "true"
  | .bool false => "false"
  | .num n => toString n
  | .str s => renderString s
  | .arr xs => "[" ++ Json.renderElems xs ++ "]"
  | .obj fs => String.singleton obraceC ++ Json.renderMembers fs ++ String.singleton cbraceC

/-- Comma-separated rendering of array elements. -/
def Json.renderElems : List Json → String
  | [] => ""
  | [x] => Json.render x
  | x :: y :: xs => Json.render x ++ "," ++ Json.renderElems (y :: xs)

/-- Comma-separated rendering of object members. -/
def Json.renderMembers : List (String × Json) → String
  | [] => ""
  | [(k, v)] => renderString k ++ ":" ++ Json.render v
  | (k, v) :: m :: fs => renderString k ++ ":" ++ Json.render v ++ "," ++ Json.renderMembers (m :: fs)

end

/-- Whitespace skipping for the JSON parser. -/
def skipWs : List Char → List Char
  | [] => []
  | c :: cs => if c = ' ' ∨ c = '\t' ∨ c = '\n' ∨ c = '\r' then skipWs cs else c :: cs

/-- Value of a hex digit, if any. -/
def hexVal? (c : Char) : Option Nat :=
  if '0' ≤ c ∧ c ≤ '9' then some (c.toNat - 48)
  else if 'a' ≤ c ∧ c ≤ 'f' then some (c.toNat - 87)
  else if 'A' ≤ c ∧ c ≤ 'F' then some (c.toNat - 55)
  else none

/-- Split a leading run of decimal digits from the input. -/
def takeDigits : List Char → (List Char × List Char)
  | [] => ([], [])
  | c :: cs =>
    if c.isDigit then
      let (d, r) := takeDigits cs
      (c :: d, r)
    else ([], c :: cs)

/-- Numeric value of a digit run. -/
def digitsToNat (ds : List Char) : Nat :=
  ds.foldl (fun acc c => acc * 10 + (c.toNat - 48)) 0

/-- Parse the body of a JSON string literal after the opening quote,
returning the decoded string and the input after the closing quote. -/
def parseStringBody : Nat → List Char → Option (String × List Char)
  | 0, _ => none
  | _ + 1, [] => none
  | fuel + 1, c :: cs =>
    if c = '"' then some ("", cs)
    else if c = '\\' then
      match cs with
      | [] => none
      | e :: cs' =>
        let dec? : Option (Char × List Char) :=
          if e = '"' then some ('"', cs')
          else if e = '\\' then some ('\\', cs')
          else if e = '/' then some ('/', cs')
          else if e = 'b' then some (Char.ofNat 8, cs')
          else if e = 'f' then some (Char.ofNat 12, cs')
          else if e = 'n' then some ('\n', cs')
          else if e = 'r' then some ('\r', cs')
          else if e = 't' then some ('\t', cs')
          else if e = 'u' then
            match cs' with
            | h1 :: h2 :: h3 :: h4 :: cs'' =>
              match hexVal? h1, hexVal? h2, hexVal? h3, hexVal? h4 with
              | some a, some b, some c3, some d =>
                some (Char.ofNat (a * 4096 + b * 256 + c3 * 16 + d), cs'')
              | _, _, _, _ => none
            | _ => none
          else none
        match dec? with
        | some (ch, rest) =>
          (parseStringBody fuel rest).map fun (s, r) => (String.singleton ch ++ s, r)
        | none => none
    else
      (parseStringBody fuel cs).map fun (s, r) => (String.singleton c ++ s, r)

/-- Parse an integer JSON number (the model excludes floats). -/
def parseNumber (cs : List Char) : Option (Json × List Char) :=
  let (neg, cs') := match cs with
    | '-' :: rest => (true, rest)
    | _ => (false, cs)
  match takeDigits cs' with
  | ([], _) => none
  | (ds, rest) =>
    match rest with
    | c :: _ =>
      if c = '.' ∨ c = 'e' ∨ c = 'E' then none
      else some (.num (if neg then -(digitsToNat ds : Int) else (digitsToNat ds : Int)), rest)
    | [] => some (.num (if neg then -(digitsToNat ds : Int) else (digitsToNat ds : Int)), [])

mutual

/-- Fueled recursive-descent JSON value parser, as serde_json's `from_str`. -/
def parseValue : Nat → List Char → Option (Json × List Char)
  | 0, _ => none
  | fuel + 1, cs =>
    match skipWs cs with
    | [] => none
    | c :: cs' =>
      if c = '"' then
        (parseStringBody (fuel + 1) cs').map fun (s, r) => (.str s, r)
      else if c = '[' then
        match skipWs cs' with
        | ']' :: r => some (.arr [], r)
        | _ => (parseElems fuel cs').map fun (xs, r) => (.arr xs, r)
      else if c = obraceC then
        match skipWs cs' with
        | c2 :: r =>
          if c2 = cbraceC then some (.obj [], r)
          else (parseMembers fuel cs').map fun (fs, r') => (.obj fs, r')
        | [] => none
      else if c = 't' then
        match cs' with
        | 'r' :: 'u' :: 'e' :: r => some (.bool true, r)
        | _ => none
      else if c = 'f' then
        match cs' with
        | 'a' :: 'l' :: 's' :: 'e' :: r => some (.bool false, r)
        | _ => none
      else if c = 'n' then
        match cs' with
        | 'u' :: 'l' :: 'l' :: r => some (.null, r)
        | _ => none
      else
        parseNumber (c :: cs')

/-- Parse one or more comma-separated array elements, then the closing bracket. -/
def parseElems : Nat → List Char → Option (List Json × List Char)
  | 0, _ => none
  | fuel + 1, cs =>
    match parseValue fuel cs with
    | none => none
    | some (v, rest) =>
      match skipWs rest with
      | ',' :: rest' =>
        (parseElems fuel rest').map fun (xs, r) => (v :: xs, r)
      | ']' :: rest' => some ([v], rest')
      | _ => none

/-- Parse one or more comma-separated object members, then the closing brace. -/
def parseMembers : Nat → List Char → Option (List (String × Json) × List Char)
  | 0, _ => none
  | fuel + 1, cs =>
    match skipWs cs with
    | '"' :: cs' =>
      match parseStringBody (fuel + 1) cs' with
      | none => none
      | some (k, rest) =>
        match skipWs rest with
        | ':' :: rest' =>
          match parseValue fuel rest' with
          | none => none
          | some (v, rest'') =>
            match skipWs rest'' with
            | ',' :: rest3 =>
              (parseMembers fuel rest3).map fun (fs, r) => ((k, v) :: fs, r)
            | c :: rest3 =>
              if c = cbraceC then some ([(k, v)], rest3) else none
            | [] => none
        | _ => none
    | _ => none

end

/-- Parse a whole JSON document, as serde_json's `from_str::<Value>`:
trailing non-whitespace input or an empty document is an error. -/
def parseJson (s : String) : Except String Json :=
  match parseValue (s.length + 1) s.data with
  | some (v, rest) =>
    if skipWs rest = [] then .ok v else .error "trailing characters"
  | none => .error "EOF or invalid JSON while parsing a value"

/-- First-match field lookup in a JSON object, as serde_json map access. -/
def lookupField : List (String × Json) → String → Option Json
  | [], _ => none
  | (k', v) :: fs, k => if k' = k then some v else lookupField fs k

/-- Lookup of a top-level object key, as serde_json's `Value::get` (returns
nothing on non-objects). -/
def Json.jget : Json → String → Option Json
  | .obj fs, k => lookupField fs k
  | _, _ => none

/-- One segment of a JSON pointer path: an object key or an array index.
The source's pointer strings translate segment-wise, e.g.
`/choices/0/finish_reason` becomes `[key choices, idx 0, key finish_reason]`. -/
inductive Seg where
  | key (k : String)
  | idx (i : Nat)

/-- Value at a JSON pointer path, if present. -/
def Json.pget : List Seg → Json → Option Json
  | [], v => some v
  | .key k :: rest, .obj fs =>
    match lookupField fs k with
    | some v => Json.pget rest v
    | none => none
  | .idx i :: rest, .arr xs =>
    match xs.get? i with
    | some v => Json.pget rest v
    | none => none
  | _ :: _, _ => none

/-- Replace the value of the first field named `k` using `f`. -/
def replaceFieldWith (k : String) (f : Json → Json) : List (String × Json) → List (String × Json)
  | [] => []
  | (k', v) :: fs => if k' = k then (k', f v) :: fs else (k', v) :: replaceFieldWith k f fs

/-- Replace the element at index `i` using `f`. -/
def replaceIdxWith (f : Json → Json) : Nat → List Json → List Json
  | _, [] => []
  | 0, x :: xs => f x :: xs
  | i + 1, x :: xs => x :: replaceIdxWith f i xs

/-- Replace the value at a JSON pointer path (no-op on path mismatch). -/
def Json.setAt : List Seg → Json → Json → Json
  | [], _, new => new
  | .key k :: rest, .obj fs, new => .obj (replaceFieldWith k (fun v => Json.setAt rest v new) fs)
  | .idx i :: rest, .arr xs, new => .arr (replaceIdxWith (fun v => Json.setAt rest v new) i xs)
  | _ :: _, v, _ => v

-- ---------------------------------------------------------------------------
-- Conversation model (src/chat/chat_req.rs, chat_res.rs, tool/tool_call.rs)
-- ---------------------------------------------------------------------------

/-- Vendor kinds referenced by the adapters under study. -/
inductive AdapterKind where
  | OpenAI
  | Ollama
  | Groq
  | Anthropic
  | Gemini

/-- Model identity: which adapter it belongs to and its model name. -/
structure ModelInfo where
  adapter_kind : AdapterKind
  model_name : String

/-- Message content; the source restricts it to a single Text variant. -/
inductive MessageContent where
  | Text (s : String)

/-- Nested function descriptor of an assistant tool call. -/
structure AssistantToolCallFunction where
  fn_name : String
  fn_arguments : Option Json

/-- A vendor-issued tool call carried by an assistant message. -/
structure AssistantToolCall where
  tool_call_id : String
  tool_call_type : String
  function : AssistantToolCallFunction

/-- Extra payload attachable to an Assistant message. -/
inductive MessageExtra where
  | ToolCall (v : List AssistantToolCall)

/-- A tool-response message body. -/
structure ToolMessage where
  tool_call_id : String
  tool_name : String
  tool_result : String

/-- Conversation message sum type. -/
inductive ChatMessage where
  | System (content : String)
  | Assistant (content : MessageContent) (extra : Option MessageExtra)
  | User (content : MessageContent) (extra : Option MessageExtra)
  | ToolResponse (msg : ToolMessage)

/-- Conversation roles. -/
inductive ChatRole where
  | System
  | User
  | Assistant
  | Tool

/-- A chat request: ordered messages plus optional tool declarations. -/
structure ChatRequest where
  messages : List ChatMessage
  tools : Option (List Json)

/-- Token accounting (best effort). -/
structure MetaUsage where
  input_tokens : Option Int
  output_tokens : Option Int
  total_tokens : Option Int

/-- The all-absent default of `MetaUsage`. -/
def MetaUsage.default : MetaUsage := ⟨none, none, none⟩

/-- Response payload: text content or tool calls, never both. -/
inductive ChatResponsePayload where
  | Content (c : Option MessageContent)
  | ToolCall (t : Option (List AssistantToolCall))

/-- A chat response: payload plus usage. -/
structure ChatResponse where
  payload : ChatResponsePayload
  usage : MetaUsage

/-- Library error type (`crate::Error`), restricted to the variants the
embedded functions construct. `PropertyNotFound` and `SerdeJson` stand for
the shape/deserialization failures surfaced through the `?` operator. -/
inductive Error where
  | MessageRoleNotSupported (model_info : ModelInfo) (role : ChatRole)
  | NeitherChatNorToolresponse (model_info : ModelInfo)
  | UnexpectedChatResponseFormat (model_info : ModelInfo) (detail : String)
  | StreamEventError (model_info : ModelInfo) (body : Json)
  | SerdeJson (msg : String)
  | PropertyNotFound (path : List Seg)

-- ---------------------------------------------------------------------------
-- value_ext helpers
-- ---------------------------------------------------------------------------

/-- Modelled from the spec: `crate::support::value_ext::ValueExt::x_take` is
not under src/; per the spec's failure taxonomy, an expected JSON path that
is absent is a shape error, and a take yields the value at the path while
mutating the body (the removed slot is left as null).  Returns the taken
value together with the updated body. -/
def Json.x_take (p : List Seg) (v : Json) : Except Error (Json × Json) :=
  match Json.pget p v with
  | some x => .ok (x, Json.setAt p v .null)
  | none => .error (.PropertyNotFound p)

/-- Typed take of a string (serde deserialization of `String` rejects
any non-string value). -/
def Json.x_take_string (p : List Seg) (v : Json) : Except Error (String × Json) :=
  match Json.x_take p v with
  | .ok (.str s, v') => .ok (s, v')
  | .ok (_, _) => .error (.SerdeJson "invalid type: expected a string")
  | .error e => .error e

/-- Typed take of an array (serde deserialization of `Vec<Value>`). -/
def Json.x_take_arr (p : List Seg) (v : Json) : Except Error (List Json × Json) :=
  match Json.x_take p v with
  | .ok (.arr xs, v') => .ok (xs, v')
  | .ok (_, _) => .error (.SerdeJson "invalid type: expected an array")
  | .error e => .error e

/-- Typed take of an `Option<Value>` (null becomes none). -/
def Json.x_take_opt (p : List Seg) (v : Json) : Except Error (Option Json × Json) :=
  match Json.x_take p v with
  | .ok (.null, v') => .ok (none, v')
  | .ok (x, v') => .ok (some x, v')
  | .error e => .error e

/-- Modelled from the spec: `value_ext`'s non-mutating `x_get` at an
`Option<String>` target — an absent path is a shape error, null is none,
a string is some, anything else a deserialization error. -/
def Json.x_get_opt_string (p : List Seg) (v : Json) : Except Error (Option String) :=
  match Json.pget p v with
  | none => .error (.PropertyNotFound p)
  | some .null => .ok none
  | some (.str s) => .ok (some s)
  | some _ => .error (.SerdeJson "invalid type: expected a string or null")

/-- The `as_str` view of a JSON value. -/
def Json.asStr? : Json → Option String
  | .str s => some s
  | _ => none

/-- Integer read used by the usage accessors (`x_take::<i32>(..).ok()`
on a fresh key: the take's mutation is invisible because the usage keys
are pairwise distinct). -/
def Json.jgetInt (v : Json) (k : String) : Option Int :=
  match Json.jget v k with
  | some (.num n) => some n
  | _ => none

/-- Sequential fallible map, stopping at the first error, as serde's
element-wise `Vec` deserialization and the adapters' item loops. -/
def exceptMapM (f : α → Except ε β) : List α → Except ε (List β)
  | [] => .ok []
  | a :: as =>
    match f a with
    | .error e => .error e
    | .ok b => (exceptMapM f as).map fun bs => b :: bs

-- ---------------------------------------------------------------------------
-- AssistantToolCall response deserialization (src/chat/tool/tool_call.rs)
-- ---------------------------------------------------------------------------

/-- The `deserialize_json_string` helper: deserialize a JSON string and then
parse its contents as JSON, mapping the parsed value to some; a non-string
input or a malformed inner string is an error, never a silent none. -/
def deserialize_json_string (v : Json) : Except String (Option Json) :=
  match v with
  | .str s =>
    match parseJson s with
    | .ok j => .ok (some j)
    | .error e => .error e
  | _ => .error "invalid type: expected a string"

/-- Serde-derived deserializer for `AssistantToolCallFunction`: requires a
`name` string and an `arguments` field decoded through
`deserialize_json_string`. -/
def AssistantToolCallFunction.deserialize (v : Json) : Except String AssistantToolCallFunction :=
  match v with
  | .obj fs =>
    match lookupField fs "name", lookupField fs "arguments" with
    | some (.str n), some av =>
      (deserialize_json_string av).map fun args => ⟨n, args⟩
    | some _, some _ => .error "invalid type for field name"
    | _, _ => .error "missing field"
  | _ => .error "invalid type: expected an object"

/-- Serde-derived deserializer for `AssistantToolCall`: requires an `id`
string, a `type` string and a `function` descriptor. -/
def AssistantToolCall.deserialize (v : Json) : Except String AssistantToolCall :=
  match v with
  | .obj fs =>
    match lookupField fs "id", lookupField fs "type", lookupField fs "function" with
    | some (.str i), some (.str t), some fv =>
      (AssistantToolCallFunction.deserialize fv).map fun f => ⟨i, t, f⟩
    | some _, some _, some _ => .error "invalid type for field id or type"
    | _, _, _ => .error "missing field"
  | _ => .error "invalid type: expected an object"

/-- Deserializer for `Option<Vec<AssistantToolCall>>` (null becomes none). -/
def deserializeOptToolCalls (v : Json) : Except String (Option (List AssistantToolCall)) :=
  match v with
  | .null => .ok none
  | .arr xs => (exceptMapM AssistantToolCall.deserialize xs).map fun tcs => some tcs
  | _ => .error "invalid type: expected an array"

-- ---------------------------------------------------------------------------
-- ChatRequest getters (src/chat/chat_req.rs)
-- ---------------------------------------------------------------------------

/-- Rust's `str::ends_with('\n')`: whether the last character is a newline. -/
def endsWithNL (s : String) : Bool := s.data.getLast? = some '\n'

/-- The system-role contents of a request, in message order
(`ChatRequest::iter_systems`). -/
def ChatRequest.iter_systems (req : ChatRequest) : List String :=
  req.messages.filterMap fun m =>
    match m with
    | .System content => some content
    | _ => none

/-- One iteration of the `combine_systems` loop: start the accumulator on
first use, add one newline if it already ends in a newline, two if it is
non-empty, then append the next system content. -/
def combineStep (systems : Option String) (system : String) : Option String :=
  let systems_content := systems.getD ""
  let systems_content :=
    if endsWithNL systems_content then systems_content ++ "\n"
    else if systems_content ≠ "" then systems_content ++ "\n\n"
    else systems_content
  some (systems_content ++ system)

/-- `ChatRequest::combine_systems`: fold all system contents into one
string, none when there is no system content at all. -/
def ChatRequest.combine_systems (req : ChatRequest) : Option String :=
  req.iter_systems.foldl combineStep none

-- ---------------------------------------------------------------------------
-- OpenAI translator (src/adapter/adapters/openai/adapter_impl.rs)
-- ---------------------------------------------------------------------------

/-- The request parts built by the OpenAI translator. -/
structure OpenAIRequestParts where
  messages : List Json
  tools : Option (List Json)

/-- The per-tool-call JSON built inside `into_openai_request_parts`: the
argument value is re-stringified (`json_val.to_string()`), or the empty
string when absent. -/
def encode_openai_tool_call (atc : AssistantToolCall) : Json :=
  let func_args_string :=
    match atc.function.fn_arguments with
    | none => ""
    | some json_val => json_val.render
  .obj [("id", .str atc.tool_call_id),
        ("type", .str atc.tool_call_type),
        ("function", .obj [("name", .str atc.function.fn_name),
                           ("arguments", .str func_args_string)])]

/-- The message loop of `into_openai_request_parts`, returning the
accumulated ollama-variant system contents and the encoded messages,
both in message order. -/
def openaiFold (ollama_variant : Bool) : List ChatMessage → (List String × List Json)
  | [] => ([], [])
  | msg :: rest =>
    let (system_messages, messages) := openaiFold ollama_variant rest
    match msg with
    | .System content =>
      if ollama_variant then (content :: system_messages, messages)
      else (system_messages, .obj [("role", .str "system"), ("content", .str content)] :: messages)
    | .Assistant (.Text content) extra =>
      match extra with
      | some (.ToolCall toolcall_v) =>
        (system_messages,
         .obj [("role", .str "assistant"),
               ("content", .str content),
               ("tool_calls", .arr (toolcall_v.map encode_openai_tool_call))] :: messages)
      | none =>
        (system_messages, .obj [("role", .str "assistant"), ("content", .str content)] :: messages)
    | .User (.Text content) _ =>
      (system_messages, .obj [("role", .str "user"), ("content", .str content)] :: messages)
    | .ToolResponse tool_msg =>
      (system_messages,
       .obj [("role", .str "tool"),
             ("tool_call_id", .str tool_msg.tool_call_id),
             ("name", .str tool_msg.tool_name),
             ("content", .str tool_msg.tool_result)] :: messages)

/-- `OpenAIAdapter::into_openai_request_parts`: encode every message; for
the Ollama variant the system contents are instead joined with `\n` into a
single leading system message. -/
def OpenAIAdapter.into_openai_request_parts (model_info : ModelInfo) (chat_req : ChatRequest) :
    Except Error OpenAIRequestParts :=
  let ollama_variant :=
    match model_info.adapter_kind with
    | .Ollama => true
    | _ => false
  let (system_messages, messages) := openaiFold ollama_variant chat_req.messages
  let messages :=
    if system_messages.isEmpty then messages
    else
      .obj [("role", .str "system"),
            ("content", .str (String.intercalate "\n" system_messages))] :: messages
  .ok { messages := messages, tools := chat_req.tools }

-- ---------------------------------------------------------------------------
-- Anthropic translator (src/adapter/adapters/anthropic/adapter_impl.rs)
-- ---------------------------------------------------------------------------

/-- The request parts built by the Anthropic translator. -/
structure AnthropicRequestParts where
  system : Option String
  messages : List Json

/-- The message loop of `into_anthropic_request_parts`: accumulate system
contents and encoded user/assistant messages, failing on a tool-response
message with the role-not-supported error. -/
def anthropicFold (model_info : ModelInfo) : List ChatMessage → Except Error (List String × List Json)
  | [] => .ok ([], [])
  | msg :: rest =>
    match msg with
    | .System content =>
      (anthropicFold model_info rest).map fun (systems, messages) =>
        (content :: systems, messages)
    | .Assistant (.Text content) _ =>
      (anthropicFold model_info rest).map fun (systems, messages) =>
        (systems, .obj [("role", .str "assistant"), ("content", .str content)] :: messages)
    | .User (.Text content) _ =>
      (anthropicFold model_info rest).map fun (systems, messages) =>
        (systems, .obj [("role", .str "user"), ("content", .str content)] :: messages)
    | .ToolResponse _ => .error (.MessageRoleNotSupported model_info .Tool)

/-- `AnthropicAdapter::into_anthropic_request_parts`: system contents are
joined with `\n` into one top-level system string. -/
def AnthropicAdapter.into_anthropic_request_parts (model_info : ModelInfo) (chat_req : ChatRequest) :
    Except Error AnthropicRequestParts :=
  match anthropicFold model_info chat_req.messages with
  | .error e => .error e
  | .ok (systems, messages) =>
    let system := if systems.isEmpty then none else some (String.intercalate "\n" systems)
    .ok { system := system, messages := messages }

-- ---------------------------------------------------------------------------
-- Gemini translator (src/adapter/adapters/gemini/adapter_impl.rs)
-- ---------------------------------------------------------------------------

/-- The request parts built by the Gemini translator. -/
structure GeminiChatRequestParts where
  system : Option String
  contents : List Json

/-- The message loop of `into_gemini_request_parts`: user keeps role
`user`, assistant is renamed `model`, contents are wrapped in `parts`
text objects, and a tool-response message fails with the
role-not-supported error. -/
def geminiFold (model_info : ModelInfo) : List ChatMessage → Except Error (List String × List Json)
  | [] => .ok ([], [])
  | msg :: rest =>
    match msg with
    | .System content =>
      (geminiFold model_info rest).map fun (systems, contents) =>
        (content :: systems, contents)
    | .Assistant (.Text content) _ =>
      (geminiFold model_info rest).map fun (systems, contents) =>
        (systems, .obj [("role", .str "model"),
                        ("parts", .arr [.obj [("text", .str content)]])] :: contents)
    | .User (.Text content) _ =>
      (geminiFold model_info rest).map fun (systems, contents) =>
        (systems, .obj [("role", .str "user"),
                        ("parts", .arr [.obj [("text", .str content)]])] :: contents)
    | .ToolResponse _ => .error (.MessageRoleNotSupported model_info .Tool)

/-- `GeminiAdapter::into_gemini_request_parts`: system contents are joined
with `\n` into one system string for the `systemInstruction` part. -/
def GeminiAdapter.into_gemini_request_parts (model_info : ModelInfo) (chat_req : ChatRequest) :
    Except Error GeminiChatRequestParts :=
  match geminiFold model_info chat_req.messages with
  | .error e => .error e
  | .ok (systems, contents) =>
    let system := if systems.isEmpty then none else some (String.intercalate "\n" systems)
    .ok { system := system, contents := contents }

-- ---------------------------------------------------------------------------
-- Response parsing
-- ---------------------------------------------------------------------------

/-- `OpenAIAdapter::into_usage`: prompt/completion/total token fields
mapped one to one. -/
def OpenAIAdapter.into_usage (usage_value : Json) : MetaUsage :=
  { input_tokens := usage_value.jgetInt "prompt_tokens"
    output_tokens := usage_value.jgetInt "completion_tokens"
    total_tokens := usage_value.jgetInt "total_tokens" }

/-- Path of the finish-reason field, `/choices/0/finish_reason`. -/
def openaiFinishPath : List Seg := [.key "choices", .idx 0, .key "finish_reason"]

/-- Path of the first choice, `/choices/0`. -/
def openaiChoicePath : List Seg := [.key "choices", .idx 0]

/-- Path of the message content inside a choice, `/message/content`. -/
def openaiMsgContentPath : List Seg := [.key "message", .key "content"]

/-- Path of the tool calls inside a choice, `/message/tool_calls`. -/
def openaiMsgToolCallsPath : List Seg := [.key "message", .key "tool_calls"]

/-- The finish-reason branching of `OpenAIAdapter::to_chat_response`
(source lines after the usage extraction, operating on the already
usage-taken body): read the finish reason, take the first choice, then
branch: `stop` extracts the message content, `tool_calls` extracts and
deserializes the tool-call array, any other finish reason is the
neither-chat-nor-tool error, and a null finish reason is an
unexpected-format error.  The source unwraps the tool-call option (a
panic when the first choice is null); the model returns the
deserializer's error on that unreachable input instead. -/
def OpenAIAdapter.choices_to_chat_response (model_info : ModelInfo) (usage : MetaUsage)
    (body : Json) : Except Error ChatResponse :=
  match Json.x_get_opt_string openaiFinishPath body with
  | .error e => .error e
  | .ok finish_reason? =>
    match Json.x_take_opt openaiChoicePath body with
    | .error e => .error e
    | .ok (first_choice, _) =>
      match finish_reason? with
      | some finish_reason =>
        if finish_reason = "stop" then
          let res_content : Except Error (Option String) :=
            match first_choice with
            | none => .ok none
            | some c => (Json.x_take_string openaiMsgContentPath c).map fun p => some p.1
          match res_content with
          | .error e => .error e
          | .ok res_content =>
            .ok { payload := .Content (res_content.map MessageContent.Text), usage := usage }
        else if finish_reason = "tool_calls" then
          let res_toolcall : Except Error (Option Json) :=
            match first_choice with
            | none => .ok none
            | some c => (Json.x_take openaiMsgToolCallsPath c).map fun p => some p.1
          match res_toolcall with
          | .error e => .error e
          | .ok res_toolcall =>
            match deserializeOptToolCalls (res_toolcall.getD .null) with
            | .error e => .error (.SerdeJson e)
            | .ok tool_calls => .ok { payload := .ToolCall tool_calls, usage := usage }
        else .error (.NeitherChatNorToolresponse model_info)
      | none =>
        .error (.UnexpectedChatResponseFormat model_info
          "OpenAI Adapter: /choices/0/finish_reason is missing")

/-- `OpenAIAdapter::to_chat_response`: take the usage (defaulting on
failure, with the body left untouched in that case), then run the
finish-reason branching on the resulting body. -/
def OpenAIAdapter.to_chat_response (model_info : ModelInfo) (body : Json) :
    Except Error ChatResponse :=
  let taken := (Json.x_take [.key "usage"] body).toOption
  let usage := (taken.map fun vb => OpenAIAdapter.into_usage vb.1).getD MetaUsage.default
  let body := (taken.map Prod.snd).getD body
  OpenAIAdapter.choices_to_chat_response model_info usage body

/-- `AnthropicAdapter::into_usage`: total is the sum of input and output
when either is present. -/
def AnthropicAdapter.into_usage (usage_value : Json) : MetaUsage :=
  let input_tokens := usage_value.jgetInt "input_tokens"
  let output_tokens := usage_value.jgetInt "output_tokens"
  let total_tokens :=
    if input_tokens.isSome ∨ output_tokens.isSome then
      some (input_tokens.getD 0 + output_tokens.getD 0)
    else none
  { input_tokens := input_tokens, output_tokens := output_tokens, total_tokens := total_tokens }

/-- `AnthropicAdapter::to_chat_response`: take the `content` array, read
the usage, take every item's `text`, and return none when the collected
vector is empty, else the concatenation of its entries. -/
def AnthropicAdapter.to_chat_response (_model_info : ModelInfo) (body : Json) :
    Except Error ChatResponse :=
  match Json.x_take_arr [.key "content"] body with
  | .error e => .error e
  | .ok (json_content_items, body) =>
    let usage :=
      match Json.x_take [.key "usage"] body with
      | .ok (v, _) => AnthropicAdapter.into_usage v
      | .error _ => MetaUsage.default
    match exceptMapM (fun item => (Json.x_take_string [.key "text"] item).map Prod.fst)
        json_content_items with
    | .error e => .error e
    | .ok content =>
      let content := if content.isEmpty then none else some (String.join content)
      .ok { payload := .Content (content.map MessageContent.Text), usage := usage }

/-- `GeminiAdapter::into_usage`: prompt/candidates/total token fields
mapped one to one. -/
def GeminiAdapter.into_usage (usage_value : Json) : MetaUsage :=
  { input_tokens := usage_value.jgetInt "promptTokenCount"
    output_tokens := usage_value.jgetInt "candidatesTokenCount"
    total_tokens := usage_value.jgetInt "totalTokenCount" }

/-- The parsed Gemini chat response. -/
structure GeminiChatResponse where
  content : Option String
  usage : MetaUsage

/-- Path of the candidate text, `/candidates/0/content/parts/0/text`. -/
def geminiTextPath : List Seg :=
  [.key "candidates", .idx 0, .key "content", .key "parts", .idx 0, .key "text"]

/-- `GeminiAdapter::body_to_gemini_chat_response`: a body with a top-level
`error` key is the vendor-error variant, checked before the candidate text
is extracted. -/
def GeminiAdapter.body_to_gemini_chat_response (model_info : ModelInfo) (body : Json) :
    Except Error GeminiChatResponse :=
  if (Json.jget body "error").isSome then
    .error (.StreamEventError model_info body)
  else
    match Json.x_take geminiTextPath body with
    | .error e => .error e
    | .ok (content, body) =>
      let usage :=
        match Json.x_take [.key "usageMetadata"] body with
        | .ok (v, _) => GeminiAdapter.into_usage v
        | .error _ => MetaUsage.default
      .ok { content := content.asStr?, usage := usage }

-- ---------------------------------------------------------------------------
-- Tool invocation bridge (src/chat/tool/tool_invoke.rs)
-- ---------------------------------------------------------------------------

/-- The tool-invocation error enum (`tool_invoke::Error`).  The serde
variant carries the display text of the underlying serde_json error. -/
inductive ToolError where
  | ToolCallArgsFailedSerialization
  | ToolCallFunctionFailed (msg : String)
  | SerdeJson (msg : String)

/-- Display of `tool_invoke::Error`, which formats via the derived Debug
representation (string escaping of inner payloads is abbreviated to plain
quoting; the claims only inspect the variant-name prefix). -/
def ToolError.display : ToolError → String
  | .ToolCallArgsFailedSerialization => "ToolCallArgsFailedSerialization"
  | .ToolCallFunctionFailed msg => "ToolCallFunctionFailed(\"" ++ msg ++ "\")"
  | .SerdeJson msg => "SerdeJson(" ++ msg ++ ")"

/-- The error text `format!("Error during '{fn_name}' {e}")`. -/
def invokeErrorString (fn_name e : String) : String :=
  "Error during " ++ squote ++ fn_name ++ squote ++ " " ++ e

/-- `invoke_no_args`: call the native function; an error becomes the
human-readable error string (the generic error type is modelled by its
display text). -/
def invoke_no_args (func : Unit → Except String String) (fn_name : String) : String :=
  match func () with
  | .ok t => t
  | .error e => invokeErrorString fn_name e

/-- `invoke_with_args`: a missing argument value is
`ToolCallArgsFailedSerialization`; then the value is deserialized into the
parameter type (`dec` models the serde instance of the generic parameter),
the native function is called, and any error is rendered into the error
string instead of propagating. -/
def invoke_with_args {A : Type} (dec : Json → Except String A)
    (func : A → Except String String) (args : Option Json) (fn_name : String) : String :=
  let checked : Except ToolError A :=
    match args with
    | none => .error .ToolCallArgsFailedSerialization
    | some v =>
      match dec v with
      | .ok a => .ok a
      | .error e => .error (.SerdeJson e)
  let called : Except ToolError String :=
    match checked with
    | .error e => .error e
    | .ok a =>
      match func a with
      | .ok t => .ok t
      | .error e => .error (.ToolCallFunctionFailed e)
  match called with
  | .ok val => val
  | .error e => invokeErrorString fn_name e.display

-- ---------------------------------------------------------------------------
-- Helper lemmas
-- ---------------------------------------------------------------------------

theorem str_ext {s t : String} (h : s.data = t.data) : s = t := by
  cases s; cases t; exact congrArg String.mk h

theorem str_data_ne_nil {s : String} (h : s ≠ "") : s.data ≠ [] := by
  intro hd
  exact h (str_ext (by simpa using hd))

theorem endsWithNL_append (x : String) {b : String} (h : b ≠ "") :
    endsWithNL (x ++ b) = endsWithNL b := by
  unfold endsWithNL
  rw [String.data_append, List.getLast?_append_of_ne_nil x.data (str_data_ne_nil h)]

theorem append_ne_empty_right (x : String) {b : String} (h : b ≠ "") : x ++ b ≠ "" := by
  intro he
  apply str_data_ne_nil h
  have : (x ++ b).data = [] := by rw [he]
  rw [String.data_append] at this
  exact (List.append_eq_nil.mp this).2

theorem invokeErrorString_eq (fn_name e : String) :
    invokeErrorString fn_name e =
      ("Error during " ++ squote ++ fn_name ++ squote) ++ (" " ++ e) := by
  simp only [invokeErrorString, String.append_assoc]

theorem exceptMapM_length {α β ε : Type} (f : α → Except ε β) :
    ∀ (l : List α) (l' : List β), exceptMapM f l = .ok l' → l'.length = l.length := by
  intro l
  induction l with
  | nil => intro l' h; cases h; rfl
  | cons a as ih =>
    intro l' h
    unfold exceptMapM at h
    cases hf : f a with
    | error e => rw [hf] at h; cases h
    | ok b =>
      rw [hf] at h
      cases hm : exceptMapM f as with
      | error e => rw [hm] at h; cases h
      | ok bs =>
        rw [hm] at h
        cases h
        simp [ih bs hm]

-- ---------------------------------------------------------------------------
-- C10: invoke_with_args on a missing argument value
-- ---------------------------------------------------------------------------

/-- C10: for every deserializer, native function and fn_name, calling
`invoke_with_args` with args equal to none returns the exact string
`Error during '<fn_name>' ToolCallArgsFailedSerialization`, and the result
is independent of the native function (it is never invoked). -/
theorem invoke_with_args_none_args {A : Type} (dec : Json → Except String A)
    (func other : A → Except String String) (fn_name : String) :
    invoke_with_args dec func none fn_name =
      ("Error during " ++ squote ++ fn_name ++ squote) ++ " ToolCallArgsFailedSerialization" ∧
    invoke_with_args dec func none fn_name = invoke_with_args dec other none fn_name := by
  refine ⟨?_, rfl⟩
  show invokeErrorString fn_name "ToolCallArgsFailedSerialization" = _
  rw [invokeErrorString_eq]
  have hlit : (" " ++ "ToolCallArgsFailedSerialization" : String)
      = " ToolCallArgsFailedSerialization" := by decide
  rw [hlit]

-- ---------------------------------------------------------------------------
-- C8: the invocation bridge always returns a plain string
-- ---------------------------------------------------------------------------

/-- C8: `invoke_no_args` and `invoke_with_args` always return a plain
string and never propagate an error: on success the returned string is
exactly the native function's result; on native-function failure or on
argument-deserialization failure the result begins with
`Error during '<fn_name>'`. -/
theorem invoke_bridge_returns_plain_string {A : Type} (fn_name : String)
    (func0 : Unit → Except String String) (dec : Json → Except String A)
    (func1 : A → Except String String) :
    (∀ s, func0 () = .ok s → invoke_no_args func0 fn_name = s) ∧
    (∀ e, func0 () = .error e →
      ∃ rest, invoke_no_args func0 fn_name =
        ("Error during " ++ squote ++ fn_name ++ squote) ++ rest) ∧
    (∀ v a s, dec v = .ok a → func1 a = .ok s →
      invoke_with_args dec func1 (some v) fn_name = s) ∧
    (∀ v e, dec v = .error e →
      ∃ rest, invoke_with_args dec func1 (some v) fn_name =
        ("Error during " ++ squote ++ fn_name ++ squote) ++ rest) ∧
    (∀ v a e, dec v = .ok a → func1 a = .error e →
      ∃ rest, invoke_with_args dec func1 (some v) fn_name =
        ("Error during " ++ squote ++ fn_name ++ squote) ++ rest) := by
  refine ⟨?_, ?_, ?_, ?_, ?_⟩
  · intro s h
    unfold invoke_no_args
    rw [h]
  · intro e h
    refine ⟨" " ++ e, ?_⟩
    unfold invoke_no_args
    rw [h]
    dsimp only
    rw [invokeErrorString_eq]
  · intro v a s hdec hfun
    unfold invoke_with_args
    dsimp only
    rw [hdec]
    dsimp only
    rw [hfun]
  · intro v e hdec
    refine ⟨" " ++ ToolError.display (.SerdeJson e), ?_⟩
    unfold invoke_with_args
    dsimp only
    rw [hdec]
    dsimp only
    rw [invokeErrorString_eq]
  · intro v a e hdec hfun
    refine ⟨" " ++ ToolError.display (.ToolCallFunctionFailed e), ?_⟩
    unfold invoke_with_args
    dsimp only
    rw [hdec]
    dsimp only
    rw [hfun]
    dsimp only
    rw [invokeErrorString_eq]

/-- Witness for C8 at concrete inputs: a no-argument tool returning 70
yields exactly 70, and a failing native function yields the error string. -/
theorem invoke_bridge_returns_plain_string_witness :
    invoke_no_args (fun _ => .ok "70") "get_temp" = "70" ∧
    (∃ rest, invoke_with_args (fun j => Except.ok j) (fun _ => Except.error "broken")
        (some Json.null) "get_temp" = ("Error during " ++ squote ++ "get_temp" ++ squote) ++ rest) := by
  constructor
  · exact (invoke_bridge_returns_plain_string (A := Json) "get_temp" (fun _ => .ok "70")
      (fun j => .ok j) (fun _ => .error "broken")).1 "70" rfl
  · exact (invoke_bridge_returns_plain_string (A := Json) "get_temp" (fun _ => .ok "70")
      (fun j => .ok j) (fun _ => .error "broken")).2.2.2.2 Json.null Json.null "broken" rfl rfl

-- ---------------------------------------------------------------------------
-- C4: Gemini vendor-error envelope
-- ---------------------------------------------------------------------------

/-- C4: for every Gemini response body containing a top-level error key,
`body_to_gemini_chat_response` returns the vendor-error variant carrying
the model identity and the offending body, without reading the candidate
text (the error check precedes the text extraction by construction). -/
theorem gemini_error_envelope (model_info : ModelInfo) (body v : Json)
    (h : Json.jget body "error" = some v) :
    GeminiAdapter.body_to_gemini_chat_response model_info body =
      .error (.StreamEventError model_info body) := by
  unfold GeminiAdapter.body_to_gemini_chat_response
  rw [h]
  rfl

/-- Witness for C4 at a concrete error body. -/
theorem gemini_error_envelope_witness :
    GeminiAdapter.body_to_gemini_chat_response ⟨.Gemini, "gemini-1.5-pro"⟩
      (.obj [("error", .obj [("code", .num 400)]),
             ("candidates", .arr [.obj [("content", .str "x")]])]) =
      .error (.StreamEventError ⟨.Gemini, "gemini-1.5-pro"⟩
        (.obj [("error", .obj [("code", .num 400)]),
               ("candidates", .arr [.obj [("content", .str "x")]])])) :=
  gemini_error_envelope ⟨.Gemini, "gemini-1.5-pro"⟩ _ (.obj [("code", .num 400)]) rfl

-- ---------------------------------------------------------------------------
-- C5: combine_systems separator behaviour
-- ---------------------------------------------------------------------------

/-- C5: for a request whose system contents are a, b, c in order, none
empty and none ending in a newline, `combine_systems` yields the contents
joined with blank lines; for a request with no system messages it yields
none. -/
theorem combine_systems_spec (req : ChatRequest) (a b c : String)
    (hsys : req.iter_systems = [a, b, c])
    (ha : endsWithNL a = false) (hb : endsWithNL b = false) (_hc : endsWithNL c = false)
    (ha0 : a ≠ "") (hb0 : b ≠ "") (_hc0 : c ≠ "") :
    req.combine_systems = some (a ++ "\n\n" ++ b ++ "\n\n" ++ c) ∧
    ∀ req0 : ChatRequest, req0.iter_systems = [] → req0.combine_systems = none := by
  have h1 : combineStep none a = some a := by
    rw [show combineStep none a = some ("" ++ a) from rfl, String.empty_append]
  have h2 : combineStep (some a) b = some (a ++ "\n\n" ++ b) := by
    simp [combineStep, ha, ha0]
  have he3 : endsWithNL (a ++ "\n\n" ++ b) = false := by
    rw [endsWithNL_append _ hb0, hb]
  have hne3 : a ++ "\n\n" ++ b ≠ "" := append_ne_empty_right _ hb0
  have h3 : combineStep (some (a ++ "\n\n" ++ b)) c = some (a ++ "\n\n" ++ b ++ "\n\n" ++ c) := by
    simp [combineStep, he3, hne3]
  constructor
  · unfold ChatRequest.combine_systems
    rw [hsys, List.foldl_cons, h1, List.foldl_cons, h2, List.foldl_cons, h3, List.foldl_nil]
  · intro req0 h0
    unfold ChatRequest.combine_systems
    rw [h0]
    rfl

/-- Witness for C5 at a concrete request with three system messages. -/
theorem combine_systems_spec_witness :
    ChatRequest.combine_systems
      ⟨[.System "You are helpful", .User (.Text "hi") none,
        .System "Be brief", .System "Answer in French"], none⟩ =
      some ("You are helpful" ++ "\n\n" ++ "Be brief" ++ "\n\n" ++ "Answer in French") :=
  (combine_systems_spec
    ⟨[.System "You are helpful", .User (.Text "hi") none,
      .System "Be brief", .System "Answer in French"], none⟩
    "You are helpful" "Be brief" "Answer in French" rfl (by decide) (by decide) (by decide)
    (by decide) (by decide) (by decide)).1

-- ---------------------------------------------------------------------------
-- C2: tool-response messages fail Anthropic and Gemini translation
-- ---------------------------------------------------------------------------

theorem anthropicFold_toolresponse (mi : ModelInfo) :
    ∀ msgs : List ChatMessage, (∃ tm, ChatMessage.ToolResponse tm ∈ msgs) →
      anthropicFold mi msgs = .error (.MessageRoleNotSupported mi .Tool) := by
  intro msgs
  induction msgs with
  | nil => rintro ⟨tm, hmem⟩; cases hmem
  | cons msg rest ih =>
    rintro ⟨tm, hmem⟩
    rcases List.mem_cons.mp hmem with heq | htail
    · rw [← heq]; rfl
    · have hrest := ih ⟨tm, htail⟩
      cases msg with
      | System content => simp [anthropicFold, hrest, Except.map]
      | Assistant content extra => cases content with
        | Text s => simp [anthropicFold, hrest, Except.map]
      | User content extra => cases content with
        | Text s => simp [anthropicFold, hrest, Except.map]
      | ToolResponse tm' => rfl

theorem geminiFold_toolresponse (mi : ModelInfo) :
    ∀ msgs : List ChatMessage, (∃ tm, ChatMessage.ToolResponse tm ∈ msgs) →
      geminiFold mi msgs = .error (.MessageRoleNotSupported mi .Tool) := by
  intro msgs
  induction msgs with
  | nil => rintro ⟨tm, hmem⟩; cases hmem
  | cons msg rest ih =>
    rintro ⟨tm, hmem⟩
    rcases List.mem_cons.mp hmem with heq | htail
    · rw [← heq]; rfl
    · have hrest := ih ⟨tm, htail⟩
      cases msg with
      | System content => simp [geminiFold, hrest, Except.map]
      | Assistant content extra => cases content with
        | Text s => simp [geminiFold, hrest, Except.map]
      | User content extra => cases content with
        | Text s => simp [geminiFold, hrest, Except.map]
      | ToolResponse tm' => rfl

/-- C2: for every request containing a tool-response message, both the
Anthropic and the Gemini translator fail with the role-not-supported error
carrying the Tool role and the model identity; the error arises while the
request parts are built, before any transport request exists. -/
theorem toolresponse_role_not_supported (mi : ModelInfo) (req : ChatRequest)
    (h : ∃ tm, ChatMessage.ToolResponse tm ∈ req.messages) :
    AnthropicAdapter.into_anthropic_request_parts mi req =
      .error (.MessageRoleNotSupported mi .Tool) ∧
    GeminiAdapter.into_gemini_request_parts mi req =
      .error (.MessageRoleNotSupported mi .Tool) := by
  constructor
  · unfold AnthropicAdapter.into_anthropic_request_parts
    rw [anthropicFold_toolresponse mi req.messages h]
  · unfold GeminiAdapter.into_gemini_request_parts
    rw [geminiFold_toolresponse mi req.messages h]

-- ---------------------------------------------------------------------------
-- C6: Anthropic system string vs combine_systems
-- ---------------------------------------------------------------------------

theorem anthropicFold_ok_systems (mi : ModelInfo) :
    ∀ (msgs : List ChatMessage) (systems : List String) (messages : List Json),
      anthropicFold mi msgs = .ok (systems, messages) →
      systems = msgs.filterMap (fun m =>
        match m with
        | .System content => some content
        | _ => none) := by
  intro msgs
  induction msgs with
  | nil => intro s m h; cases h; rfl
  | cons msg rest ih =>
    intro s m h
    cases msg with
    | System content =>
      unfold anthropicFold at h
      cases hr : anthropicFold mi rest with
      | error e => rw [hr] at h; cases h
      | ok pair =>
        obtain ⟨rs, rm⟩ := pair
        rw [hr] at h
        simp only [Except.map, Except.ok.injEq, Prod.mk.injEq] at h
        obtain ⟨hs, _⟩ := h
        simp only [List.filterMap_cons]
        rw [← hs, ih rs rm hr]
    | Assistant content extra =>
      cases content with
      | Text str0 =>
        unfold anthropicFold at h
        cases hr : anthropicFold mi rest with
        | error e => rw [hr] at h; cases h
        | ok pair =>
          obtain ⟨rs, rm⟩ := pair
          rw [hr] at h
          simp only [Except.map, Except.ok.injEq, Prod.mk.injEq] at h
          obtain ⟨hs, _⟩ := h
          simp only [List.filterMap_cons]
          rw [← hs, ih rs rm hr]
    | User content extra =>
      cases content with
      | Text str0 =>
        unfold anthropicFold at h
        cases hr : anthropicFold mi rest with
        | error e => rw [hr] at h; cases h
        | ok pair =>
          obtain ⟨rs, rm⟩ := pair
          rw [hr] at h
          simp only [Except.map, Except.ok.injEq, Prod.mk.injEq] at h
          obtain ⟨hs, _⟩ := h
          simp only [List.filterMap_cons]
          rw [← hs, ih rs rm hr]
    | ToolResponse tm => cases h

/-- Counterexample for C6: at the request with system messages `a` and
`b`, the Anthropic translator's top-level system string joins with a
single newline, while `combine_systems` inserts a blank line, so the two
differ. -/
theorem anthropic_system_ne_combine_systems :
    AnthropicAdapter.into_anthropic_request_parts ⟨.Anthropic, "claude-3-haiku-20240307"⟩
      ⟨[.System "a", .System "b"], none⟩ =
      .ok ⟨some "a\nb", []⟩ ∧
    ChatRequest.combine_systems ⟨[.System "a", .System "b"], none⟩ = some "a\n\nb" ∧
    some ("a\nb" : String) ≠ some ("a\n\nb" : String) := by
  refine ⟨rfl, rfl, ?_⟩
  decide

/-- C6 amended: for every request with two or more System messages, if the
Anthropic translator succeeds then its top-level system string equals the
System contents joined with a single `\n` separator (not the blank-line
separator of `combine_systems`). -/
theorem anthropic_system_joined_with_newline (mi : ModelInfo) (req : ChatRequest)
    (parts : AnthropicRequestParts) (a b : String) (rest : List String)
    (hs : req.iter_systems = a :: b :: rest)
    (hok : AnthropicAdapter.into_anthropic_request_parts mi req = .ok parts) :
    parts.system = some (String.intercalate "\n" (a :: b :: rest)) := by
  unfold AnthropicAdapter.into_anthropic_request_parts at hok
  cases hr : anthropicFold mi req.messages with
  | error e => rw [hr] at hok; cases hok
  | ok pair =>
    obtain ⟨systems, messages⟩ := pair
    rw [hr] at hok
    have hsys : systems = req.iter_systems := by
      rw [anthropicFold_ok_systems mi req.messages systems messages hr]
      rfl
    rw [hs] at hsys
    simp only [Except.ok.injEq] at hok
    rw [← hok]
    simp [hsys]

/-- Witness for the amended C6 at a concrete two-system request. -/
theorem anthropic_system_joined_with_newline_witness :
    (⟨some ("You are helpful" ++ "\n" ++ "Be brief"), []⟩ : AnthropicRequestParts).system =
      some (String.intercalate "\n" ["You are helpful", "Be brief"]) :=
  anthropic_system_joined_with_newline ⟨.Anthropic, "claude-3-haiku-20240307"⟩
    ⟨[.System "You are helpful", .System "Be brief"], none⟩
    ⟨some ("You are helpful" ++ "\n" ++ "Be brief"), []⟩
    "You are helpful" "Be brief" [] rfl (by rfl)

-- ---------------------------------------------------------------------------
-- C7: Anthropic content concatenation
-- ---------------------------------------------------------------------------

/-- Counterexample for C7: a body whose content array holds one item with
an empty text yields `Content (some "")` — the emptiness test is on the
vector of texts, not on the concatenated string, so `Some` of an empty
string is reachable. -/
theorem anthropic_empty_text_yields_some_empty :
    (AnthropicAdapter.to_chat_response ⟨.Anthropic, "claude-3-haiku-20240307"⟩
      (.obj [("content", .arr [.obj [("text", .str "")]])])).map ChatResponse.payload =
      .ok (.Content (some (.Text ""))) := rfl

/-- C7 amended: the Anthropic parser extracts the content array and
concatenates the items' texts in order; the payload content is none
exactly when the content array is empty, and may be some of an empty
string when all parts are empty. -/
theorem anthropic_content_concat (mi : ModelInfo) (body : Json) (items : List Json)
    (texts : List String)
    (hc : Json.pget [.key "content"] body = some (.arr items))
    (ht : exceptMapM (fun item => (Json.x_take_string [.key "text"] item).map Prod.fst) items =
      .ok texts) :
    (AnthropicAdapter.to_chat_response mi body).map ChatResponse.payload =
      .ok (.Content (if texts.isEmpty then none else some (.Text (String.join texts)))) := by
  have harr : Json.x_take_arr [.key "content"] body =
      .ok (items, Json.setAt [.key "content"] body .null) := by
    unfold Json.x_take_arr Json.x_take
    rw [hc]
  unfold AnthropicAdapter.to_chat_response
  rw [harr]
  dsimp only
  rw [ht]
  dsimp only
  cases htexts : texts.isEmpty <;> simp [htexts, Except.map]

/-- Witness for the amended C7 at a concrete two-part body. -/
theorem anthropic_content_concat_witness :
    (AnthropicAdapter.to_chat_response ⟨.Anthropic, "claude-3-haiku-20240307"⟩
      (.obj [("content", .arr [.obj [("text", .str "Hello ")],
                               .obj [("text", .str "world")]])])).map ChatResponse.payload =
      .ok (.Content (if ["Hello ", "world"].isEmpty then none
                     else some (.Text (String.join ["Hello ", "world"])))) :=
  anthropic_content_concat ⟨.Anthropic, "claude-3-haiku-20240307"⟩
    (.obj [("content", .arr [.obj [("text", .str "Hello ")], .obj [("text", .str "world")]])])
    [.obj [("text", .str "Hello ")], .obj [("text", .str "world")]]
    ["Hello ", "world"] rfl rfl

-- ---------------------------------------------------------------------------
-- Pointer lemmas
-- ---------------------------------------------------------------------------

theorem pget_append : ∀ (p q : List Seg) (v : Json),
    Json.pget (p ++ q) v = (Json.pget p v).bind (Json.pget q) := by
  intro p
  induction p with
  | nil => intro q v; rfl
  | cons s rest ih =>
    intro q v
    cases s with
    | key k =>
      cases v with
      | obj fs =>
        show Json.pget (.key k :: (rest ++ q)) (.obj fs) = _
        simp only [Json.pget]
        cases hl : lookupField fs k with
        | none => rfl
        | some w => exact ih q w
      | null => rfl
      | bool b => rfl
      | num n => rfl
      | str s0 => rfl
      | arr xs => rfl
    | idx i =>
      cases v with
      | arr xs =>
        show Json.pget (.idx i :: (rest ++ q)) (.arr xs) = _
        simp only [Json.pget]
        cases hl : xs.get? i with
        | none => rfl
        | some w => exact ih q w
      | null => rfl
      | bool b => rfl
      | num n => rfl
      | str s0 => rfl
      | obj fs => rfl

theorem lookupField_replaceFieldWith_ne (k k' : String) (f : Json → Json) (hne : k' ≠ k) :
    ∀ fs : List (String × Json), lookupField (replaceFieldWith k f fs) k' = lookupField fs k' := by
  intro fs
  induction fs with
  | nil => rfl
  | cons kv rest ih =>
    obtain ⟨k0, v0⟩ := kv
    by_cases h0 : k0 = k
    · subst h0
      simp only [replaceFieldWith, if_pos rfl, lookupField]
      rw [if_neg (fun h => hne h.symm), if_neg (fun h => hne h.symm)]
    · simp only [replaceFieldWith, if_neg h0, lookupField]
      by_cases h1 : k0 = k'
      · rw [if_pos h1, if_pos h1]
      · rw [if_neg h1, if_neg h1]
        exact ih

theorem pget_setAt_top_key_ne (k k' : String) (hne : k' ≠ k) (p : List Seg) (body new : Json) :
    Json.pget (.key k' :: p) (Json.setAt [.key k] body new) = Json.pget (.key k' :: p) body := by
  cases body with
  | obj fs =>
    show Json.pget (.key k' :: p) (.obj (replaceFieldWith k (fun v => Json.setAt [] v new) fs)) = _
    simp only [Json.pget]
    rw [lookupField_replaceFieldWith_ne k k' _ hne fs]
  | null => rfl
  | bool b => rfl
  | num n => rfl
  | str s0 => rfl
  | arr xs => rfl

-- ---------------------------------------------------------------------------
-- Helpers for the OpenAI tool-call round trip (C1, C9)
-- ---------------------------------------------------------------------------

theorem ollama_variant_false (mi : ModelInfo) (h : mi.adapter_kind ≠ .Ollama) :
    (match mi.adapter_kind with
     | AdapterKind.Ollama => true
     | _ => false) = false := by
  cases hk : mi.adapter_kind <;> simp_all

theorem openaiFold_false_fst : ∀ msgs : List ChatMessage, (openaiFold false msgs).1 = [] := by
  intro msgs
  induction msgs with
  | nil => rfl
  | cons msg rest ih =>
    unfold openaiFold
    rcases hsm : openaiFold false rest with ⟨s, m⟩
    rw [hsm] at ih
    cases msg with
    | System content => simpa using ih
    | Assistant content extra =>
      cases content with
      | Text str0 => cases extra with
        | none => simpa using ih
        | some ex => cases ex with
          | ToolCall tcs => simpa using ih
    | User content extra => cases content with
      | Text str0 => simpa using ih
    | ToolResponse tm => simpa using ih

theorem openaiFold_false_mem (content : String) (tcs : List AssistantToolCall) :
    ∀ msgs : List ChatMessage,
      ChatMessage.Assistant (.Text content) (some (.ToolCall tcs)) ∈ msgs →
      (Json.obj [("role", .str "assistant"), ("content", .str content),
                 ("tool_calls", .arr (tcs.map encode_openai_tool_call))]) ∈
        (openaiFold false msgs).2 := by
  intro msgs
  induction msgs with
  | nil => intro hmem; cases hmem
  | cons msg rest ih =>
    intro hmem
    rcases List.mem_cons.mp hmem with heq | htail
    · subst heq
      unfold openaiFold
      rcases hsm : openaiFold false rest with ⟨s, m⟩
      exact List.mem_cons_self _ _
    · have ihm := ih htail
      unfold openaiFold
      rcases hsm : openaiFold false rest with ⟨s, m⟩
      rw [hsm] at ihm
      cases msg with
      | System content2 => exact List.mem_cons_of_mem _ ihm
      | Assistant content2 extra =>
        cases content2 with
        | Text str0 => cases extra with
          | none => exact List.mem_cons_of_mem _ ihm
          | some ex => cases ex with
            | ToolCall tcs2 => exact List.mem_cons_of_mem _ ihm
      | User content2 extra => cases content2 with
        | Text str0 => exact List.mem_cons_of_mem _ ihm
      | ToolResponse tm => exact List.mem_cons_of_mem _ ihm

theorem into_openai_ok (mi : ModelInfo) (req : ChatRequest) (hmi : mi.adapter_kind ≠ .Ollama) :
    OpenAIAdapter.into_openai_request_parts mi req =
      .ok ⟨(openaiFold false req.messages).2, req.tools⟩ := by
  unfold OpenAIAdapter.into_openai_request_parts
  rw [ollama_variant_false mi hmi]
  rcases hsm : openaiFold false req.messages with ⟨s, m⟩
  have hfst := openaiFold_false_fst req.messages
  rw [hsm] at hfst
  simp only at hfst
  subst hfst
  simp [hsm]

theorem deserialize_encode_tool_call (atc : AssistantToolCall)
    (h : atc.function.fn_arguments = some (Json.obj [("x", Json.num 1)])) :
    AssistantToolCall.deserialize (encode_openai_tool_call atc) =
      .ok ⟨atc.tool_call_id, atc.tool_call_type,
           ⟨atc.function.fn_name, some (Json.obj [("x", Json.num 1)])⟩⟩ := by
  unfold encode_openai_tool_call
  rw [h]
  rfl

theorem deserialize_encode_tool_call_none (atc : AssistantToolCall)
    (h : atc.function.fn_arguments = none) :
    AssistantToolCall.deserialize (encode_openai_tool_call atc) =
      .error "EOF or invalid JSON while parsing a value" := by
  unfold encode_openai_tool_call
  rw [h]
  rfl

-- ---------------------------------------------------------------------------
-- C1: OpenAI tool-call arguments round trip
-- ---------------------------------------------------------------------------

/-- C1: for every assistant message carrying a tool call whose arguments
deep-equal the object with field x mapped to 1, encoding the request
through the OpenAI translator produces a tool_calls entry which the
AssistantToolCall response deserializer decodes back to arguments
deep-equal to the same object. -/
theorem openai_tool_call_arguments_roundtrip (mi : ModelInfo) (req : ChatRequest)
    (content : String) (tcs : List AssistantToolCall) (atc : AssistantToolCall)
    (hmi : mi.adapter_kind ≠ .Ollama)
    (hmem : ChatMessage.Assistant (.Text content) (some (.ToolCall tcs)) ∈ req.messages)
    (hatc : atc ∈ tcs)
    (hargs : atc.function.fn_arguments = some (Json.obj [("x", Json.num 1)])) :
    ∃ parts, OpenAIAdapter.into_openai_request_parts mi req = .ok parts ∧
      ∃ m ∈ parts.messages, ∃ entries, Json.jget m "tool_calls" = some (.arr entries) ∧
        ∃ e ∈ entries, ∃ tc, AssistantToolCall.deserialize e = .ok tc ∧
          tc.function.fn_arguments = some (Json.obj [("x", Json.num 1)]) := by
  refine ⟨⟨(openaiFold false req.messages).2, req.tools⟩, into_openai_ok mi req hmi, ?_⟩
  refine ⟨_, openaiFold_false_mem content tcs req.messages hmem, ?_⟩
  refine ⟨tcs.map encode_openai_tool_call, rfl, ?_⟩
  refine ⟨encode_openai_tool_call atc, List.mem_map_of_mem _ hatc, ?_⟩
  exact ⟨_, deserialize_encode_tool_call atc hargs, rfl⟩

/-- Witness for C1 at a concrete request with one tool call. -/
theorem openai_tool_call_arguments_roundtrip_witness :
    ∃ parts, OpenAIAdapter.into_openai_request_parts ⟨.OpenAI, "gpt-4o"⟩
        ⟨[.Assistant (.Text "")
            (some (.ToolCall [⟨"call_1", "function",
              ⟨"set_x", some (Json.obj [("x", Json.num 1)])⟩⟩]))], none⟩ = .ok parts ∧
      ∃ m ∈ parts.messages, ∃ entries, Json.jget m "tool_calls" = some (.arr entries) ∧
        ∃ e ∈ entries, ∃ tc, AssistantToolCall.deserialize e = .ok tc ∧
          tc.function.fn_arguments = some (Json.obj [("x", Json.num 1)]) :=
  openai_tool_call_arguments_roundtrip ⟨.OpenAI, "gpt-4o"⟩
    ⟨[.Assistant (.Text "")
        (some (.ToolCall [⟨"call_1", "function",
          ⟨"set_x", some (Json.obj [("x", Json.num 1)])⟩⟩]))], none⟩
    "" [⟨"call_1", "function", ⟨"set_x", some (Json.obj [("x", Json.num 1)])⟩⟩]
    ⟨"call_1", "function", ⟨"set_x", some (Json.obj [("x", Json.num 1)])⟩⟩
    (by intro h; cases h) (List.mem_cons_self _ _) (List.mem_cons_self _ _) rfl

-- ---------------------------------------------------------------------------
-- C9: absent arguments encode to an empty string and fail to decode
-- ---------------------------------------------------------------------------

/-- C9: for every assistant tool call whose arguments are absent, the
OpenAI translator emits a tool_calls entry whose arguments field is the
empty string, which the AssistantToolCall response deserializer rejects as
a parse error, so the round trip does not hold for absent arguments. -/
theorem openai_tool_call_none_args_no_roundtrip (mi : ModelInfo) (req : ChatRequest)
    (content : String) (tcs : List AssistantToolCall) (atc : AssistantToolCall)
    (hmi : mi.adapter_kind ≠ .Ollama)
    (hmem : ChatMessage.Assistant (.Text content) (some (.ToolCall tcs)) ∈ req.messages)
    (hatc : atc ∈ tcs)
    (hargs : atc.function.fn_arguments = none) :
    ∃ parts, OpenAIAdapter.into_openai_request_parts mi req = .ok parts ∧
      ∃ m ∈ parts.messages, ∃ entries, Json.jget m "tool_calls" = some (.arr entries) ∧
        ∃ e ∈ entries,
          Json.pget [.key "function", .key "arguments"] e = some (.str "") ∧
          ∃ err, AssistantToolCall.deserialize e = .error err := by
  refine ⟨⟨(openaiFold false req.messages).2, req.tools⟩, into_openai_ok mi req hmi, ?_⟩
  refine ⟨_, openaiFold_false_mem content tcs req.messages hmem, ?_⟩
  refine ⟨tcs.map encode_openai_tool_call, rfl, ?_⟩
  refine ⟨encode_openai_tool_call atc, List.mem_map_of_mem _ hatc, ?_, ?_⟩
  · unfold encode_openai_tool_call
    rw [hargs]
    rfl
  · exact ⟨_, deserialize_encode_tool_call_none atc hargs⟩

/-- Witness for C9 at a concrete request with one argument-less tool call. -/
theorem openai_tool_call_none_args_no_roundtrip_witness :
    ∃ parts, OpenAIAdapter.into_openai_request_parts ⟨.OpenAI, "gpt-4o"⟩
        ⟨[.Assistant (.Text "")
            (some (.ToolCall [⟨"call_2", "function", ⟨"get_temp", none⟩⟩]))], none⟩ = .ok parts ∧
      ∃ m ∈ parts.messages, ∃ entries, Json.jget m "tool_calls" = some (.arr entries) ∧
        ∃ e ∈ entries,
          Json.pget [.key "function", .key "arguments"] e = some (.str "") ∧
          ∃ err, AssistantToolCall.deserialize e = .error err :=
  openai_tool_call_none_args_no_roundtrip ⟨.OpenAI, "gpt-4o"⟩
    ⟨[.Assistant (.Text "") (some (.ToolCall [⟨"call_2", "function", ⟨"get_temp", none⟩⟩]))], none⟩
    "" [⟨"call_2", "function", ⟨"get_temp", none⟩⟩]
    ⟨"call_2", "function", ⟨"get_temp", none⟩⟩
    (by intro h; cases h) (List.mem_cons_self _ _) (List.mem_cons_self _ _) rfl

-- ---------------------------------------------------------------------------
-- C3: OpenAI finish-reason branching
-- ---------------------------------------------------------------------------

/-- Path of the message content, `/choices/0/message/content`. -/
def openaiFullContentPath : List Seg :=
  [.key "choices", .idx 0, .key "message", .key "content"]

/-- Path of the tool calls, `/choices/0/message/tool_calls`. -/
def openaiFullToolCallsPath : List Seg :=
  [.key "choices", .idx 0, .key "message", .key "tool_calls"]

theorem openai_choices_core (mi : ModelInfo) (usage : MetaUsage) (b2 : Json) (fr : String)
    (cfs : List (String × Json))
    (hf : Json.pget openaiFinishPath b2 = some (.str fr))
    (hch : Json.pget openaiChoicePath b2 = some (.obj cfs)) :
    (∀ txt, fr = "stop" →
       Json.pget openaiMsgContentPath (.obj cfs) = some (.str txt) →
       OpenAIAdapter.choices_to_chat_response mi usage b2 =
         .ok ⟨.Content (some (.Text txt)), usage⟩) ∧
    (∀ items tcs, fr = "tool_calls" →
       Json.pget openaiMsgToolCallsPath (.obj cfs) = some (.arr items) →
       exceptMapM AssistantToolCall.deserialize items = .ok tcs →
       OpenAIAdapter.choices_to_chat_response mi usage b2 =
         .ok ⟨.ToolCall (some tcs), usage⟩) ∧
    (fr ≠ "stop" → fr ≠ "tool_calls" →
       OpenAIAdapter.choices_to_chat_response mi usage b2 =
         .error (.NeitherChatNorToolresponse mi)) := by
  have hfin : Json.x_get_opt_string openaiFinishPath b2 = .ok (some fr) := by
    unfold Json.x_get_opt_string
    rw [hf]
  have hcho : Json.x_take_opt openaiChoicePath b2 =
      .ok (some (.obj cfs), Json.setAt openaiChoicePath b2 .null) := by
    unfold Json.x_take_opt Json.x_take
    rw [hch]
  refine ⟨?_, ?_, ?_⟩
  · intro txt hstop htxt
    subst hstop
    have hts : Json.x_take_string openaiMsgContentPath (.obj cfs) =
        .ok (txt, Json.setAt openaiMsgContentPath (.obj cfs) .null) := by
      unfold Json.x_take_string Json.x_take
      rw [htxt]
    unfold OpenAIAdapter.choices_to_chat_response
    rw [hfin]
    dsimp only
    rw [hcho]
    dsimp only
    rw [if_pos rfl]
    rw [hts]
    rfl
  · intro items tcs htc hitems hdes
    subst htc
    have htt : Json.x_take openaiMsgToolCallsPath (.obj cfs) =
        .ok (.arr items, Json.setAt openaiMsgToolCallsPath (.obj cfs) .null) := by
      unfold Json.x_take
      rw [hitems]
    unfold OpenAIAdapter.choices_to_chat_response
    rw [hfin]
    dsimp only
    rw [hcho]
    dsimp only
    rw [if_neg (by decide), if_pos rfl]
    rw [htt]
    dsimp only [Except.map, Option.getD, deserializeOptToolCalls]
    rw [hdes]
  · intro h1 h2
    unfold OpenAIAdapter.choices_to_chat_response
    rw [hfin]
    dsimp only
    rw [hcho]
    dsimp only
    rw [if_neg h1, if_neg h2]

theorem openai_map_conjuncts (mi : ModelInfo) (usage : MetaUsage) (b2 body : Json)
    (fr : String) (cfs : List (String × Json))
    (hres : OpenAIAdapter.to_chat_response mi body =
      OpenAIAdapter.choices_to_chat_response mi usage b2)
    (hfr2 : Json.pget openaiFinishPath b2 = some (.str fr))
    (hch2 : Json.pget openaiChoicePath b2 = some (.obj cfs))
    (hc : Json.pget openaiChoicePath body = some (.obj cfs)) :
    (∀ txt, fr = "stop" →
       Json.pget openaiFullContentPath body = some (.str txt) →
       (OpenAIAdapter.to_chat_response mi body).map ChatResponse.payload =
         .ok (.Content (some (.Text txt)))) ∧
    (∀ items tcs, fr = "tool_calls" →
       Json.pget openaiFullToolCallsPath body = some (.arr items) →
       exceptMapM AssistantToolCall.deserialize items = .ok tcs →
       (OpenAIAdapter.to_chat_response mi body).map ChatResponse.payload =
         .ok (.ToolCall (some tcs)) ∧ tcs.length = items.length) ∧
    (fr ≠ "stop" → fr ≠ "tool_calls" →
       OpenAIAdapter.to_chat_response mi body =
         .error (.NeitherChatNorToolresponse mi)) := by
  obtain ⟨core1, core2, core3⟩ := openai_choices_core mi usage b2 fr cfs hfr2 hch2
  refine ⟨?_, ?_, ?_⟩
  · intro txt hstop htxt
    have h2 : (Json.pget openaiChoicePath body).bind (Json.pget openaiMsgContentPath) =
        some (.str txt) := by
      rw [← pget_append]
      exact htxt
    obtain ⟨c', hc', hmc⟩ := Option.bind_eq_some.mp h2
    have hceq : .obj cfs = c' := Option.some.inj (hc ▸ hc')
    rw [← hceq] at hmc
    rw [hres, core1 txt hstop hmc]
    rfl
  · intro items tcs htc hitems hdes
    have h2 : (Json.pget openaiChoicePath body).bind (Json.pget openaiMsgToolCallsPath) =
        some (.arr items) := by
      rw [← pget_append]
      exact hitems
    obtain ⟨c', hc', hmt⟩ := Option.bind_eq_some.mp h2
    have hceq : .obj cfs = c' := Option.some.inj (hc ▸ hc')
    rw [← hceq] at hmt
    refine ⟨?_, exceptMapM_length _ items tcs hdes⟩
    rw [hres, core2 items tcs htc hmt hdes]
    rfl
  · intro h1 h2
    rw [hres]
    exact core3 h1 h2

/-- C3: for every OpenAI-style response body whose finish reason is the
string fr: when fr is stop the parsed payload is Content of the extracted
message text; when fr is tool_calls the payload is ToolCall of one
deserialized AssistantToolCall per vendor tool-call object; any other fr
yields an error. -/
theorem openai_finish_reason_branches (mi : ModelInfo) (body : Json) (fr : String)
    (hfr : Json.pget openaiFinishPath body = some (.str fr)) :
    (∀ txt, fr = "stop" →
       Json.pget openaiFullContentPath body = some (.str txt) →
       (OpenAIAdapter.to_chat_response mi body).map ChatResponse.payload =
         .ok (.Content (some (.Text txt)))) ∧
    (∀ items tcs, fr = "tool_calls" →
       Json.pget openaiFullToolCallsPath body = some (.arr items) →
       exceptMapM AssistantToolCall.deserialize items = .ok tcs →
       (OpenAIAdapter.to_chat_response mi body).map ChatResponse.payload =
         .ok (.ToolCall (some tcs)) ∧ tcs.length = items.length) ∧
    (fr ≠ "stop" → fr ≠ "tool_calls" →
       OpenAIAdapter.to_chat_response mi body =
         .error (.NeitherChatNorToolresponse mi)) := by
  have hsplit : (Json.pget openaiChoicePath body).bind (Json.pget [.key "finish_reason"]) =
      some (.str fr) := by
    rw [← pget_append]
    exact hfr
  obtain ⟨c, hc, hcfr⟩ := Option.bind_eq_some.mp hsplit
  obtain ⟨cfs, rfl⟩ : ∃ cfs, c = .obj cfs := by
    cases c with
    | obj cfs => exact ⟨cfs, rfl⟩
    | null => simp [Json.pget] at hcfr
    | bool b => simp [Json.pget] at hcfr
    | num n => simp [Json.pget] at hcfr
    | str s0 => simp [Json.pget] at hcfr
    | arr xs => simp [Json.pget] at hcfr
  cases hux : Json.x_take [.key "usage"] body with
  | error e =>
    have hres : OpenAIAdapter.to_chat_response mi body =
        OpenAIAdapter.choices_to_chat_response mi MetaUsage.default body := by
      unfold OpenAIAdapter.to_chat_response
      rw [hux]
      rfl
    exact openai_map_conjuncts mi MetaUsage.default body body fr cfs hres hfr hc hc
  | ok vb =>
    obtain ⟨u, body2⟩ := vb
    have hres : OpenAIAdapter.to_chat_response mi body =
        OpenAIAdapter.choices_to_chat_response mi (OpenAIAdapter.into_usage u) body2 := by
      unfold OpenAIAdapter.to_chat_response
      rw [hux]
      rfl
    have hbody2 : body2 = Json.setAt [.key "usage"] body .null := by
      unfold Json.x_take at hux
      cases hpu : Json.pget [.key "usage"] body with
      | none => rw [hpu] at hux; cases hux
      | some u0 =>
        rw [hpu] at hux
        simp only [Except.ok.injEq, Prod.mk.injEq] at hux
        exact hux.2.symm
    subst hbody2
    exact openai_map_conjuncts mi (OpenAIAdapter.into_usage u) _ body fr cfs hres
      ((pget_setAt_top_key_ne "usage" "choices" (by decide) _ body .null).trans hfr)
      ((pget_setAt_top_key_ne "usage" "choices" (by decide) _ body .null).trans hc)
      hc

/-- Witness for C3 at concrete stop, tool_calls and unknown-reason
bodies. -/
theorem openai_finish_reason_branches_witness :
    (OpenAIAdapter.to_chat_response ⟨.OpenAI, "gpt-4o"⟩
      (.obj [("choices", .arr [.obj [("finish_reason", .str "stop"),
                                     ("message", .obj [("content", .str "Hello!")])]]),
             ("usage", .obj [("prompt_tokens", .num 2)])])).map ChatResponse.payload =
      .ok (.Content (some (.Text "Hello!"))) ∧
    ((OpenAIAdapter.to_chat_response ⟨.OpenAI, "gpt-4o"⟩
      (.obj [("choices", .arr [.obj [("finish_reason", .str "tool_calls"),
        ("message", .obj [("tool_calls", .arr [.obj [("id", .str "call_9"),
          ("type", .str "function"),
          ("function", .obj [("name", .str "get_w"),
                             ("arguments", .str "1")])]])])]])])).map ChatResponse.payload =
      .ok (.ToolCall (some [⟨"call_9", "function", ⟨"get_w", some (.num 1)⟩⟩])) ∧
      ([⟨"call_9", "function", ⟨"get_w", some (.num 1)⟩⟩] : List AssistantToolCall).length =
        ([.obj [("id", .str "call_9"), ("type", .str "function"),
          ("function", .obj [("name", .str "get_w"),
                             ("arguments", .str "1")])]] : List Json).length) ∧
    OpenAIAdapter.to_chat_response ⟨.OpenAI, "gpt-4o"⟩
      (.obj [("choices", .arr [.obj [("finish_reason", .str "length")]])]) =
      .error (.NeitherChatNorToolresponse ⟨.OpenAI, "gpt-4o"⟩) := by
  refine ⟨?_, ?_, ?_⟩
  · exact (openai_finish_reason_branches ⟨.OpenAI, "gpt-4o"⟩
      (.obj [("choices", .arr [.obj [("finish_reason", .str "stop"),
                                     ("message", .obj [("content", .str "Hello!")])]]),
             ("usage", .obj [("prompt_tokens", .num 2)])]) "stop" rfl).1 "Hello!" rfl rfl
  · exact (openai_finish_reason_branches ⟨.OpenAI, "gpt-4o"⟩
      (.obj [("choices", .arr [.obj [("finish_reason", .str "tool_calls"),
        ("message", .obj [("tool_calls", .arr [.obj [("id", .str "call_9"),
          ("type", .str "function"),
          ("function", .obj [("name", .str "get_w"),
                             ("arguments", .str "1")])]])])]])]) "tool_calls" rfl).2.1
      [.obj [("id", .str "call_9"), ("type", .str "function"),
        ("function", .obj [("name", .str "get_w"), ("arguments", .str "1")])]]
      [⟨"call_9", "function", ⟨"get_w", some (.num 1)⟩⟩] rfl rfl rfl
  · exact (openai_finish_reason_branches ⟨.OpenAI, "gpt-4o"⟩
      (.obj [("choices", .arr [.obj [("finish_reason", .str "length")]])])
      "length" rfl).2.2 (by decide) (by decide)

/-- Witness for C2 at a concrete request holding a tool-response message. -/
theorem toolresponse_role_not_supported_witness :
    AnthropicAdapter.into_anthropic_request_parts ⟨.Anthropic, "claude-3-haiku-20240307"⟩
      ⟨[.User (.Text "weather?") none, .ToolResponse ⟨"id1", "get_weather", "72"⟩], none⟩ =
      .error (.MessageRoleNotSupported ⟨.Anthropic, "claude-3-haiku-20240307"⟩ .Tool) ∧
    GeminiAdapter.into_gemini_request_parts ⟨.Anthropic, "claude-3-haiku-20240307"⟩
      ⟨[.User (.Text "weather?") none, .ToolResponse ⟨"id1", "get_weather", "72"⟩], none⟩ =
      .error (.MessageRoleNotSupported ⟨.Anthropic, "claude-3-haiku-20240307"⟩ .Tool) :=
  toolresponse_role_not_supported ⟨.Anthropic, "claude-3-haiku-20240307"⟩
    ⟨[.User (.Text "weather?") none, .ToolResponse ⟨"id1", "get_weather", "72"⟩], none⟩
    ⟨⟨"id1", "get_weather", "72"⟩, List.mem_cons_of_mem _ (List.mem_cons_self _ _)⟩

end Genai
